import Mathlib

/-!
Shallow embedding of `run_tests_sqlite.py`, the test/setup utility of the
movie-booking database repository.

The persistent SQLite store is modelled as a `DB` value holding the rows of
each table; `date('now')` is modelled by the `today` field (the current date
in the store's representation) and SQLite's ordered `start_time` column by a
`Nat`.  Each Python function that prints and returns becomes a Lean function
returning its printed lines (one list element per `print` call) together with
its return value.  The process-level behaviour (file-existence checks,
`sys.exit(1)`) is modelled by wrappers over a `World` carrying file existence
flags, returning an `Effect` that records the printed output, the store
operations performed, and whether the process exited or returned normally.
-/

namespace MovieBooking

/-- `DB_FILE = 'movie_booking_system.db'` -/
def DB_FILE : String := "movie_booking_system.db"

/-- `SCHEMA_FILE = 'movie_booking_schema_sqlite.sql'` -/
def SCHEMA_FILE : String := "movie_booking_schema_sqlite.sql"

/-- The fixed theater-name constant of the P2 query. -/
def THEATER_NAME : String := "PVR: Nexus"

/-- A row of the `Theater` table. -/
structure Theater where
  theater_id : Nat
  theater_name : String
deriving DecidableEq

/-- A row of the `Hall` table (belongs to one theater, has a seating capacity). -/
structure Hall where
  hall_id : Nat
  theater_id : Nat
  hall_name : String
  seating_capacity : Int
deriving DecidableEq

/-- A row of the `Movie` table. -/
structure Movie where
  movie_id : Nat
  title : String
  language : String
  format : String
  rating : String
  is_active : Bool
deriving DecidableEq

/-- A row of the `Show` table.  `start_time` abstracts the store's ordered
time representation; `show_date` is a date string compared to `date('now')`. -/
structure Show where
  show_id : Nat
  movie_id : Nat
  hall_id : Nat
  show_date : String
  start_time : Nat
  base_price : Int
  is_active : Bool
deriving DecidableEq

/-- A row of the `Seat` table. -/
structure Seat where
  seat_id : Nat
  hall_id : Nat
deriving DecidableEq

/-- A row of the `Booking` table. -/
structure Booking where
  booking_id : Nat
  show_id : Nat
  booking_status : String
deriving DecidableEq

/-- A row of the `Booking_Seat` join table. -/
structure Booking_Seat where
  booking_id : Nat
  seat_id : Nat
deriving DecidableEq

/-- The contents of the SQLite store, plus `today`, the value of
`date('now')` at the time of the run. -/
structure DB where
  theaters : List Theater
  movies : List Movie
  halls : List Hall
  seats : List Seat
  shows : List Show
  bookings : List Booking
  booking_seats : List Booking_Seat
  today : String
deriving DecidableEq

/-! ### Verifier (`verify_setup`, lines 56-88): core logic over an open store -/

/-- The fixed checklist of `verify_setup`: each blocking table paired with its
`SELECT COUNT(*)` result and its expected minimum, in the Python dict's
iteration order `Theater, Movie, Hall, Seat, Booking`. -/
def expectedChecks (db : DB) : List (String × Nat × Nat) :=
  [("Theater", db.theaters.length, 2),
   ("Movie", db.movies.length, 6),
   ("Hall", db.halls.length, 5),
   ("Seat", db.seats.length, 9),
   ("Booking", db.bookings.length, 3)]

/-- One `  {table}: {count} rows (expected >= {min}) [{status}]` line. -/
def checkLine (table : String) (count minc : Nat) (status : String) : String :=
  "  " ++ table ++ ": " ++ toString count ++ " rows (expected >= "
    ++ toString minc ++ ") [" ++ status ++ "]"

/-- `verify_setup`, given an open store: prints one line per blocking check
(setting `all_ok` to `False` on a FAIL), then the non-blocking Show OK/WARN
line, then the summary line, and returns `all_ok`. -/
def verify_setup (db : DB) : List String × Bool :=
  let step : List String × Bool → String × Nat × Nat → List String × Bool :=
    fun acc c =>
      let (table, count, minc) := c
      let status := if count ≥ minc then "OK" else "FAIL"
      let all_ok := if status = "FAIL" then false else acc.2
      (acc.1 ++ [checkLine table count minc status], all_ok)
  let (lines, all_ok) := (expectedChecks db).foldl step (["Verifying database setup..."], true)
  let show_count := db.shows.length
  let show_status := if show_count ≥ 20 then "OK" else "WARN"
  let lines := lines ++ [checkLine "Show" show_count 20 show_status]
  let lines := lines ++
    [if all_ok then "Verification passed."
     else "Verification failed. Some tables have fewer rows than expected."]
  (lines, all_ok)

/-! ### Availability Reporter (`test_p2_query`, lines 91-156): the P2 query -/

/-- The joined rows of the derived aggregate's FROM/WHERE:
`Booking b INNER JOIN Booking_Seat bs ON b.booking_id = bs.booking_id
WHERE b.booking_status = 'Confirmed'`. -/
def confirmedRows (db : DB) : List (Booking × Booking_Seat) :=
  (db.bookings.filter (fun b => b.booking_status == "Confirmed")).flatMap
    (fun b =>
      (db.booking_seats.filter (fun bs => bs.booking_id == b.booking_id)).map
        (fun bs => (b, bs)))

/-- `COUNT(bs.seat_id)` of the aggregate's group for show `sid`: the number of
joined Confirmed booking/seat rows whose booking has `show_id = sid`
(counting each `Booking_Seat` row once, with multiplicity). -/
def confirmedSeatAttachments (db : DB) (sid : Nat) : Nat :=
  ((confirmedRows db).filter (fun r => r.1.show_id == sid)).length

/-- The distinct `show_id` values of the joined rows: the groups produced by
`GROUP BY b.show_id`. -/
def bookedShowIds (db : DB) : List Nat :=
  ((confirmedRows db).map (fun r => r.1.show_id)).dedup

/-- The derived table `booked_seats(show_id, booked_count)`: one row per group. -/
def booked_seats (db : DB) : List (Nat × Nat) :=
  (bookedShowIds db).map (fun g => (g, confirmedSeatAttachments db g))

/-- The `LEFT JOIN ... ON s.show_id = booked_seats.show_id` lookup: the
matching aggregate row's `booked_count`, or `none` when no group matches
(group keys are distinct, so at most one row matches). -/
def lookupBookedCount (db : DB) (sid : Nat) : Option Nat :=
  ((booked_seats db).find? (fun p => p.1 == sid)).map (fun p => p.2)

/-- The FROM/WHERE of the P2 query: `Show INNER JOIN Movie INNER JOIN Hall
INNER JOIN Theater` filtered by the WHERE clause (fixed theater name,
`show_date = date('now')`, both `is_active` flags). -/
def p2_joined (db : DB) : List (Show × Movie × Hall × Theater) :=
  db.shows.flatMap (fun s =>
    (db.movies.filter (fun m => m.movie_id == s.movie_id)).flatMap (fun m =>
      (db.halls.filter (fun h => h.hall_id == s.hall_id)).flatMap (fun h =>
        (((db.theaters.filter (fun t => t.theater_id == h.theater_id)).filter
            (fun t => t.theater_name == THEATER_NAME && s.show_date == db.today
              && s.is_active && m.is_active)).map
          (fun t => (s, m, h, t))))))

/-- One result row of the P2 query (the SELECT list). -/
structure P2Row where
  movie_title : String
  language : String
  format : String
  rating : String
  hall_name : String
  show_timing : Nat
  base_price : Int
  available_seats : Int
deriving DecidableEq

/-- The SELECT list: projects a joined tuple to a result row;
`available_seats = h.seating_capacity - COALESCE(booked_seats.booked_count, 0)`. -/
def p2_project (db : DB) (r : Show × Movie × Hall × Theater) : P2Row :=
  let (s, m, h, _t) := r
  { movie_title := m.title
    language := m.language
    format := m.format
    rating := m.rating
    hall_name := h.hall_name
    show_timing := s.start_time
    base_price := s.base_price
    available_seats := h.seating_capacity - Int.ofNat ((lookupBookedCount db s.show_id).getD 0) }

/-- `ORDER BY s.start_time ASC` as a relation on result rows. -/
def timeLE (a b : P2Row) : Prop := a.show_timing ≤ b.show_timing

instance : DecidableRel timeLE := fun a b => Nat.decLe a.show_timing b.show_timing

instance : IsTotal P2Row timeLE := ⟨fun a b => Nat.le_total a.show_timing b.show_timing⟩

instance : IsTrans P2Row timeLE := ⟨fun _ _ _ hab hbc => Nat.le_trans hab hbc⟩

/-- The rows fetched by the P2 query, in output order. -/
def p2_rows (db : DB) : List P2Row :=
  List.insertionSort timeLE ((p2_joined db).map (p2_project db))

/-! ### Availability Reporter: output formatting and result -/

/-- `cursor.description` column names, in SELECT order. -/
def p2Columns : List String :=
  ["movie_title", "language", "format", "rating", "hall_name",
   "show_timing", "base_price", "available_seats"]

/-- `str(val)` for each cell of a row, in column order. -/
def p2RowCells (r : P2Row) : List String :=
  [r.movie_title, r.language, r.format, r.rating, r.hall_name,
   toString r.show_timing, toString r.base_price, toString r.available_seats]

/-- `col.ljust(w)`. -/
def ljust (s : String) (w : Nat) : String :=
  s ++ String.mk (List.replicate (w - s.length) ' ')

/-- `col_widths[i] = max(len(col), max((len(str(row[i])) for row in rows), default=0))`. -/
def colWidths (rows : List P2Row) : List Nat :=
  p2Columns.enum.map (fun ic =>
    max ic.2.length ((rows.map (fun r => ((p2RowCells r).getD ic.1 "").length)).foldr max 0))

/-- The header line of the formatted table. -/
def tableHeader (rows : List P2Row) : String :=
  "  " ++ String.intercalate "  "
    ((p2Columns.zip (colWidths rows)).map (fun p => ljust p.1 p.2))

/-- The `---` separator line of the formatted table. -/
def tableSeparator (rows : List P2Row) : String :=
  "  " ++ String.intercalate "  "
    ((colWidths rows).map (fun w => String.mk (List.replicate w '-')))

/-- One formatted data line of the table. -/
def tableLine (rows : List P2Row) (r : P2Row) : String :=
  "  " ++ String.intercalate "  "
    (((p2RowCells r).zip (colWidths rows)).map (fun p => ljust p.1 p.2))

/-- The informational message printed when the query returns zero rows. -/
def noShowsMsg : String :=
  "  No shows found for today. (This is expected if today has no scheduled shows.)"

/-- The banner printed before the query runs. -/
def p2HeaderMsg : String :=
  "Running P2 query: Shows at \x27PVR: Nexus\x27 for today..."

/-- The final line of the reporter. -/
def p2PassedMsg : String := "P2 query test passed."

/-- `test_p2_query`, given an open store: runs the P2 query, prints either the
zero-row informational message or the formatted table, prints the passed
message, and returns `True` unconditionally. -/
def test_p2_query (db : DB) : List String × Bool :=
  let rows := p2_rows db
  let body :=
    if rows.isEmpty then [noShowsMsg]
    else [tableHeader rows, tableSeparator rows] ++ rows.map (tableLine rows)
      ++ ["\n  " ++ toString rows.length ++ " show(s) found."]
  ([p2HeaderMsg] ++ body ++ [p2PassedMsg], true)

/-! ### Test Orchestrator (`run_all_tests`, lines 159-172) -/

/-- `run_all_tests`: prints the banner, runs `verify_setup`, prints a blank
line, runs `test_p2_query` (unconditionally, even when verification failed),
combines the booleans with `and`, prints the summary, and returns the AND. -/
def run_all_tests (db : DB) : List String × Bool :=
  let banner := [String.mk (List.replicate 60 '='), "Running all tests",
                 String.mk (List.replicate 60 '=')]
  let v := verify_setup db
  let p := test_p2_query db
  let ok := p.2 && v.2
  (banner ++ v.1 ++ [""] ++ p.1 ++ [""]
    ++ [if ok then "All tests passed." else "Some tests failed."], ok)

/-! ### Process-level wrappers: file-existence checks and `sys.exit` -/

/-- The host state: whether the schema file and the store file exist, and the
store's contents when it exists. -/
structure World where
  schemaExists : Bool
  dbExists : Bool
  db : DB
deriving DecidableEq

/-- Normal return versus `sys.exit(code)`. -/
inductive ProcResult (α : Type) where
  | exited (code : Nat)
  | ok (a : α)
deriving DecidableEq

/-- The observable effect of one invocation: printed lines, the operations
issued against the store, and the process outcome. -/
structure Effect (α : Type) where
  output : List String
  storeOps : List String
  result : ProcResult α
deriving DecidableEq

/-- `ERROR: Schema file '...' not found.` -/
def schemaMissingMsg : String :=
  "ERROR: Schema file \x27" ++ SCHEMA_FILE ++ "\x27 not found."

/-- `ERROR: Database file '...' not found. Run --setup first.` -/
def dbMissingMsg : String :=
  "ERROR: Database file \x27" ++ DB_FILE ++ "\x27 not found. Run --setup first."

/-- `setup_database` (lines 31-47): exits with status 1 before touching the
store when the schema file is absent; otherwise executes the script as one
batch and commits. -/
def setup_database (w : World) : Effect Unit :=
  if w.schemaExists = false then
    { output := [schemaMissingMsg], storeOps := [], result := ProcResult.exited 1 }
  else
    { output := ["Setting up database from \x27" ++ SCHEMA_FILE ++ "\x27...",
                 "Database setup complete."]
      storeOps := ["executescript " ++ SCHEMA_FILE, "commit"]
      result := ProcResult.ok () }

/-- The count queries `verify_setup` issues, in order. -/
def verifyStoreOps : List String :=
  ["SELECT COUNT(*) FROM Theater", "SELECT COUNT(*) FROM Movie",
   "SELECT COUNT(*) FROM Hall", "SELECT COUNT(*) FROM Seat",
   "SELECT COUNT(*) FROM Booking", "SELECT COUNT(*) FROM Show"]

/-- Process-level `verify_setup`: exits with status 1 before any counting when
the store file is absent; otherwise runs the core verifier. -/
def verify_setupW (w : World) : Effect Bool :=
  if w.dbExists = false then
    { output := [dbMissingMsg], storeOps := [], result := ProcResult.exited 1 }
  else
    let v := verify_setup w.db
    { output := v.1, storeOps := verifyStoreOps, result := ProcResult.ok v.2 }

/-- Process-level `test_p2_query`: exits with status 1 before any query when
the store file is absent; otherwise runs the core reporter. -/
def test_p2_queryW (w : World) : Effect Bool :=
  if w.dbExists = false then
    { output := [dbMissingMsg], storeOps := [], result := ProcResult.exited 1 }
  else
    let p := test_p2_query w.db
    { output := p.1, storeOps := ["P2 availability query"], result := ProcResult.ok p.2 }

/-! ### Teardown (`teardown_database`, lines 175-181) -/

/-- `Database file '...' removed.` -/
def removedMsg : String := "Database file \x27" ++ DB_FILE ++ "\x27 removed."

/-- `Database file '...' not found; nothing to remove.` -/
def notFoundMsg : String :=
  "Database file \x27" ++ DB_FILE ++ "\x27 not found; nothing to remove."

/-- `teardown_database`: removes the store file when present, otherwise
reports the no-op outcome; never fails. -/
def teardown_database (w : World) : World × List String :=
  if w.dbExists then ({ w with dbExists := false }, [removedMsg])
  else (w, [notFoundMsg])

/-! ### Spec-side definition for the availability arithmetic -/

/-- Spec reading of the booked count (NOT the code's): the number of
DISTINCT seats attached, via `Booking_Seat`, to Confirmed bookings of show
`sid`.  The SQL instead computes `COUNT(bs.seat_id)`, which counts each
attachment row with multiplicity. -/
def distinctConfirmedSeats (db : DB) (sid : Nat) : Nat :=
  ((((confirmedRows db).filter (fun r => r.1.show_id == sid)).map
      (fun r => r.2.seat_id)).dedup).length

/-! ### Concrete stores and worlds used to instantiate the theorems -/

/-- A store with no rows at all. -/
def dbEmpty : DB :=
  { theaters := [], movies := [], halls := [], seats := [], shows := [],
    bookings := [], booking_seats := [], today := "2025-01-01" }

/-- A store where two distinct Confirmed bookings of the same show both
attach the same seat: seat 1 is attached twice, so the code's booked count
is 2 while the number of distinct booked seats is 1. -/
def dbC1 : DB :=
  { theaters := [⟨1, "PVR: Nexus"⟩]
    movies := [⟨1, "M", "En", "2D", "PG", true⟩]
    halls := [⟨1, 1, "Hall A", 10⟩]
    seats := [⟨1, 1⟩]
    shows := [⟨1, 1, 1, "2025-01-01", 10, 250, true⟩]
    bookings := [⟨1, 1, "Confirmed"⟩, ⟨2, 1, "Confirmed"⟩]
    booking_seats := [⟨1, 1⟩, ⟨2, 1⟩]
    today := "2025-01-01" }

/-- `dbC1`'s single show. -/
def sC1 : Show := ⟨1, 1, 1, "2025-01-01", 10, 250, true⟩

/-- `dbC1`'s single movie. -/
def mC1 : Movie := ⟨1, "M", "En", "2D", "PG", true⟩

/-- `dbC1`'s single hall (capacity 10). -/
def hC1 : Hall := ⟨1, 1, "Hall A", 10⟩

/-- `dbC1`'s single theater. -/
def tC1 : Theater := ⟨1, "PVR: Nexus"⟩

/-- A store with one show at the fixed theater, dated today and active. -/
def dbC3 : DB :=
  { theaters := [⟨1, "PVR: Nexus"⟩]
    movies := [⟨1, "M", "En", "2D", "PG", true⟩]
    halls := [⟨1, 1, "Hall A", 50⟩]
    seats := []
    shows := [⟨1, 1, 1, "2025-01-01", 10, 250, true⟩]
    bookings := []
    booking_seats := []
    today := "2025-01-01" }

/-- `dbC3`'s single show. -/
def sC3 : Show := ⟨1, 1, 1, "2025-01-01", 10, 250, true⟩

/-- `dbC3`'s single movie. -/
def mC3 : Movie := ⟨1, "M", "En", "2D", "PG", true⟩

/-- `dbC3`'s single hall. -/
def hC3 : Hall := ⟨1, 1, "Hall A", 50⟩

/-- `dbC3`'s single theater. -/
def tC3 : Theater := ⟨1, "PVR: Nexus"⟩

/-- A store whose two matching shows appear in the table in reverse time
order (start times 20 then 10), so the reporter must reorder them. -/
def dbC4 : DB :=
  { theaters := [⟨1, "PVR: Nexus"⟩]
    movies := [⟨1, "M", "En", "2D", "PG", true⟩]
    halls := [⟨1, 1, "Hall A", 50⟩]
    seats := []
    shows := [⟨1, 1, 1, "2025-01-01", 20, 250, true⟩,
              ⟨2, 1, 1, "2025-01-01", 10, 250, true⟩]
    bookings := []
    booking_seats := []
    today := "2025-01-01" }

/-- A store whose single matching show has bookings, none of them Confirmed. -/
def dbC5 : DB :=
  { theaters := [⟨1, "PVR: Nexus"⟩]
    movies := [⟨1, "M", "En", "2D", "PG", true⟩]
    halls := [⟨1, 1, "Hall A", 50⟩]
    seats := [⟨1, 1⟩]
    shows := [⟨1, 1, 1, "2025-01-01", 10, 250, true⟩]
    bookings := [⟨1, 1, "Cancelled"⟩]
    booking_seats := [⟨1, 1⟩]
    today := "2025-01-01" }

/-- `dbC5`'s single show. -/
def sC5 : Show := ⟨1, 1, 1, "2025-01-01", 10, 250, true⟩

/-- `dbC5`'s single movie. -/
def mC5 : Movie := ⟨1, "M", "En", "2D", "PG", true⟩

/-- `dbC5`'s single hall. -/
def hC5 : Hall := ⟨1, 1, "Hall A", 50⟩

/-- `dbC5`'s single theater. -/
def tC5 : Theater := ⟨1, "PVR: Nexus"⟩

/-- A world whose store file exists. -/
def wC7 : World := { schemaExists := true, dbExists := true, db := dbEmpty }

/-- A world where neither the schema file nor the store file exists. -/
def wC8 : World := { schemaExists := false, dbExists := false, db := dbEmpty }

/-! ### Helper lemmas -/

/-- `find?` over a list of key/value pairs built from distinct-or-not keys:
the first pair whose key equals `sid` is `(sid, f sid)`. -/
theorem find?_map_keyed (l : List Nat) (f : Nat → Nat) (sid : Nat) :
    (l.map (fun g => (g, f g))).find? (fun p => p.1 == sid)
      = if sid ∈ l then some (sid, f sid) else none := by
  induction l with
  | nil => simp
  | cons k ks ih =>
    by_cases hk : k = sid
    · subst hk
      simp [List.find?]
    · have hbe : (k == sid) = false := by simp [hk]
      simp only [List.map_cons, List.find?, hbe, ih, List.mem_cons]
      have hor : (sid = k ∨ sid ∈ ks) ↔ sid ∈ ks := or_iff_right (fun hx => hk hx.symm)
      rw [if_congr hor rfl rfl]

/-- Membership in the derived aggregate's joined rows. -/
theorem mem_confirmedRows (db : DB) (b : Booking) (bs : Booking_Seat) :
    (b, bs) ∈ confirmedRows db
      ↔ b ∈ db.bookings ∧ b.booking_status = "Confirmed"
        ∧ bs ∈ db.booking_seats ∧ bs.booking_id = b.booking_id := by
  simp only [confirmedRows, List.mem_flatMap, List.mem_map, List.mem_filter,
    beq_iff_eq, Prod.mk.injEq]
  constructor
  · rintro ⟨b', ⟨hb', hst⟩, bs', ⟨hbs', hid⟩, hb, hbs⟩
    subst hb; subst hbs
    exact ⟨hb', hst, hbs', hid⟩
  · rintro ⟨hb, hst, hbs, hid⟩
    exact ⟨b, ⟨hb, hst⟩, bs, ⟨hbs, hid⟩, rfl, rfl⟩

/-- The coalesced left-join value always equals the multiplicity count of
Confirmed seat attachments for the show. -/
theorem getD_lookupBookedCount (db : DB) (sid : Nat) :
    (lookupBookedCount db sid).getD 0 = confirmedSeatAttachments db sid := by
  unfold lookupBookedCount booked_seats
  rw [find?_map_keyed]
  by_cases hmem : sid ∈ bookedShowIds db
  · simp [hmem]
  · have hzero : confirmedSeatAttachments db sid = 0 := by
      unfold confirmedSeatAttachments
      rw [List.length_eq_zero, List.filter_eq_nil_iff]
      intro r hr
      simp only [beq_iff_eq]
      intro hsid
      exact hmem (by
        unfold bookedShowIds
        rw [List.mem_dedup, List.mem_map]
        exact ⟨r, hr, hsid⟩)
    simp [hmem, hzero]

/-- When no Confirmed booking of show `sid` exists, the aggregate has no
group for `sid`, so the left-join lookup misses. -/
theorem lookupBookedCount_eq_none (db : DB) (sid : Nat)
    (hnb : ∀ b ∈ db.bookings, b.show_id = sid → b.booking_status ≠ "Confirmed") :
    lookupBookedCount db sid = none := by
  unfold lookupBookedCount booked_seats
  rw [find?_map_keyed]
  have hmem : sid ∉ bookedShowIds db := by
    unfold bookedShowIds
    rw [List.mem_dedup, List.mem_map]
    rintro ⟨⟨b, bs⟩, hr, hsid⟩
    have h := (mem_confirmedRows db b bs).1 hr
    exact hnb b h.1 hsid h.2.1
  simp [hmem]

/-- When no Confirmed booking of show `sid` exists, the attachment count is 0. -/
theorem confirmedSeatAttachments_eq_zero (db : DB) (sid : Nat)
    (hnb : ∀ b ∈ db.bookings, b.show_id = sid → b.booking_status ≠ "Confirmed") :
    confirmedSeatAttachments db sid = 0 := by
  unfold confirmedSeatAttachments
  rw [List.length_eq_zero, List.filter_eq_nil_iff]
  rintro ⟨b, bs⟩ hr
  simp only [beq_iff_eq]
  intro hsid
  have h := (mem_confirmedRows db b bs).1 hr
  exact hnb b h.1 hsid h.2.1

/-- Membership in the P2 query's FROM/WHERE result. -/
theorem mem_p2_joined (db : DB) (s : Show) (m : Movie) (h : Hall) (t : Theater) :
    (s, m, h, t) ∈ p2_joined db
      ↔ s ∈ db.shows ∧ m ∈ db.movies ∧ m.movie_id = s.movie_id
        ∧ h ∈ db.halls ∧ h.hall_id = s.hall_id
        ∧ t ∈ db.theaters ∧ t.theater_id = h.theater_id
        ∧ t.theater_name = THEATER_NAME ∧ s.show_date = db.today
        ∧ s.is_active = true ∧ m.is_active = true := by
  simp only [p2_joined, List.mem_flatMap, List.mem_map, List.mem_filter,
    beq_iff_eq, Bool.and_eq_true, Prod.mk.injEq]
  constructor
  · rintro ⟨s', hs', m', ⟨hm', hmid⟩, h', ⟨hh', hhid⟩, t',
      ⟨⟨ht', htid⟩, ⟨⟨hname, hdate⟩, hsact⟩, hmact⟩, hseq, hmeq, hheq, hteq⟩
    subst hseq; subst hmeq; subst hheq; subst hteq
    exact ⟨hs', hm', hmid, hh', hhid, ht', htid, hname, hdate, hsact, hmact⟩
  · rintro ⟨hs, hm, hmid, hh, hhid, ht, htid, hname, hdate, hsact, hmact⟩
    exact ⟨s, hs, m, ⟨hm, hmid⟩, h, ⟨hh, hhid⟩, t,
      ⟨⟨ht, htid⟩, ⟨⟨hname, hdate⟩, hsact⟩, hmact⟩, rfl, rfl, rfl, rfl⟩

/-! ### Claim theorems -/

/-- C1 (counterexample): the claim that `available_seats` equals the hall's
capacity minus the number of DISTINCT seats attached to Confirmed bookings is
false on `dbC1`: its single show is returned by the reporter with
`available_seats = 10 - 2 = 8`, while capacity minus distinct booked seats is
`10 - 1 = 9`, because seat 1 is attached by two different Confirmed bookings
and `COUNT(bs.seat_id)` counts it twice. -/
theorem test_p2_distinct_seats_counterexample :
    (sC1, mC1, hC1, tC1) ∈ p2_joined dbC1
      ∧ p2_project dbC1 (sC1, mC1, hC1, tC1) ∈ p2_rows dbC1
      ∧ ¬ ((p2_project dbC1 (sC1, mC1, hC1, tC1)).available_seats
            = hC1.seating_capacity
              - Int.ofNat (distinctConfirmedSeats dbC1 sC1.show_id)) := by
  decide

/-- C1 (amended): for every joined tuple the reporter produces,
`available_seats` equals the hall's `seating_capacity` minus the number of
`Booking_Seat` rows attached to Confirmed bookings of that show (counted with
multiplicity, not distinct); and when the show has zero Confirmed bookings,
`available_seats` equals the capacity exactly. -/
theorem test_p2_available_seats (db : DB) (s : Show) (m : Movie) (h : Hall)
    (t : Theater) (hmem : (s, m, h, t) ∈ p2_joined db) :
    (p2_project db (s, m, h, t)).available_seats
        = h.seating_capacity - Int.ofNat (confirmedSeatAttachments db s.show_id)
      ∧ ((∀ b ∈ db.bookings, b.show_id = s.show_id → b.booking_status ≠ "Confirmed") →
          (p2_project db (s, m, h, t)).available_seats = h.seating_capacity) := by
  constructor
  · simp [p2_project, getD_lookupBookedCount]
  · intro hnb
    simp [p2_project, getD_lookupBookedCount,
      confirmedSeatAttachments_eq_zero db s.show_id hnb]

/-- C1 (witness): the amended theorem instantiated on `dbC1`'s only show. -/
theorem test_p2_available_seats_witness :
    ((sC1, mC1, hC1, tC1) ∈ p2_joined dbC1)
      ∧ ((p2_project dbC1 (sC1, mC1, hC1, tC1)).available_seats
            = hC1.seating_capacity
              - Int.ofNat (confirmedSeatAttachments dbC1 sC1.show_id)
        ∧ ((∀ b ∈ dbC1.bookings, b.show_id = sC1.show_id →
              b.booking_status ≠ "Confirmed") →
            (p2_project dbC1 (sC1, mC1, hC1, tC1)).available_seats
              = hC1.seating_capacity)) :=
  ⟨by decide, test_p2_available_seats dbC1 sC1 mC1 hC1 tC1 (by decide)⟩

/-- C2: the Verifier's returned boolean is `false` iff at least one of the
five blocking checks (Theater ≥ 2, Movie ≥ 6, Hall ≥ 5, Seat ≥ 9,
Booking ≥ 3) is below its minimum; the Show ≥ 20 count does not occur in the
right-hand side at all, so the WARN check never changes the result. -/
theorem verify_setup_false_iff (db : DB) :
    (verify_setup db).2 = false
      ↔ (db.theaters.length < 2 ∨ db.movies.length < 6 ∨ db.halls.length < 5
          ∨ db.seats.length < 9 ∨ db.bookings.length < 3) := by
  simp only [verify_setup, expectedChecks, List.foldl_cons, List.foldl_nil]
  by_cases h1 : db.theaters.length ≥ 2 <;>
    by_cases h2 : db.movies.length ≥ 6 <;>
      by_cases h3 : db.halls.length ≥ 5 <;>
        by_cases h4 : db.seats.length ≥ 9 <;>
          by_cases h5 : db.bookings.length ≥ 3 <;>
            simp [h1, h2, h3, h4, h5] <;> omega

/-- C3: under referential integrity and key uniqueness for the show's movie,
hall and theater, the reporter produces a row for show `s` iff the theater
name is the fixed constant, the show is dated today, and both `is_active`
flags are set; failing any one of the four conditions excludes the show. -/
theorem test_p2_filter (db : DB) (s : Show) (m : Movie) (h : Hall) (t : Theater)
    (hs : s ∈ db.shows) (hm : m ∈ db.movies) (em : m.movie_id = s.movie_id)
    (hh : h ∈ db.halls) (eh : h.hall_id = s.hall_id)
    (ht : t ∈ db.theaters) (et : t.theater_id = h.theater_id)
    (um : ∀ m' ∈ db.movies, m'.movie_id = s.movie_id → m' = m)
    (uh : ∀ h' ∈ db.halls, h'.hall_id = s.hall_id → h' = h)
    (ut : ∀ t' ∈ db.theaters, t'.theater_id = h.theater_id → t' = t) :
    (∃ m' h' t', (s, m', h', t') ∈ p2_joined db)
      ↔ (t.theater_name = THEATER_NAME ∧ s.show_date = db.today
          ∧ s.is_active = true ∧ m.is_active = true) := by
  constructor
  · rintro ⟨m', h', t', hmem⟩
    rw [mem_p2_joined] at hmem
    obtain ⟨_, hm', hmid', hh', hhid', ht', htid', hname, hdate, hsact, hmact⟩ := hmem
    have hm2 : m' = m := um m' hm' hmid'
    have hh2 : h' = h := uh h' hh' hhid'
    subst hh2
    have ht2 : t' = t := ut t' ht' htid'
    subst hm2; subst ht2
    exact ⟨hname, hdate, hsact, hmact⟩
  · rintro ⟨hname, hdate, hsact, hmact⟩
    exact ⟨m, h, t, (mem_p2_joined db s m h t).2
      ⟨hs, hm, em, hh, eh, ht, et, hname, hdate, hsact, hmact⟩⟩

/-- C3 (witness): the filter characterization instantiated on `dbC3`. -/
theorem test_p2_filter_witness :
    (sC3 ∈ dbC3.shows ∧ mC3 ∈ dbC3.movies ∧ mC3.movie_id = sC3.movie_id
      ∧ hC3 ∈ dbC3.halls ∧ hC3.hall_id = sC3.hall_id
      ∧ tC3 ∈ dbC3.theaters ∧ tC3.theater_id = hC3.theater_id
      ∧ (∀ m' ∈ dbC3.movies, m'.movie_id = sC3.movie_id → m' = mC3)
      ∧ (∀ h' ∈ dbC3.halls, h'.hall_id = sC3.hall_id → h' = hC3)
      ∧ (∀ t' ∈ dbC3.theaters, t'.theater_id = hC3.theater_id → t' = tC3))
    ∧ ((∃ m' h' t', (sC3, m', h', t') ∈ p2_joined dbC3)
        ↔ (tC3.theater_name = THEATER_NAME ∧ sC3.show_date = dbC3.today
            ∧ sC3.is_active = true ∧ mC3.is_active = true)) :=
  ⟨by decide,
   test_p2_filter dbC3 sC3 mC3 hC3 tC3 (by decide) (by decide) (by decide)
     (by decide) (by decide) (by decide) (by decide) (by decide) (by decide)
     (by decide)⟩

/-- C4: the reporter's rows are ordered by `start_time` ascending: whenever
row `i` has a strictly smaller `show_timing` than row `j`, row `i` precedes
row `j` in the output. -/
theorem test_p2_ordering (db : DB) (i j : Fin (p2_rows db).length)
    (hij : ((p2_rows db).get i).show_timing < ((p2_rows db).get j).show_timing) :
    (i : Nat) < (j : Nat) := by
  have hsorted : List.Sorted timeLE (p2_rows db) := by
    unfold p2_rows
    exact List.sorted_insertionSort timeLE _
  rcases lt_trichotomy (i : Nat) (j : Nat) with hlt | heq | hgt
  · exact hlt
  · exfalso
    have hij2 : i = j := Fin.ext heq
    subst hij2
    exact lt_irrefl _ hij
  · exfalso
    have hji : j < i := Fin.lt_def.mpr hgt
    have hle : timeLE ((p2_rows db).get j) ((p2_rows db).get i) :=
      hsorted.rel_get_of_lt hji
    exact absurd hij (not_lt.mpr hle)

/-- C4 (witness): on `dbC4`, whose two matching shows are stored with start
times 20 then 10, the reporter's output has the time-10 row at index 0 and
the time-20 row at index 1. -/
theorem test_p2_ordering_witness :
    ((p2_rows dbC4).get ⟨0, by decide⟩).show_timing
        < ((p2_rows dbC4).get ⟨1, by decide⟩).show_timing
      ∧ (0 : Nat) < 1 :=
  ⟨by decide, test_p2_ordering dbC4 ⟨0, by decide⟩ ⟨1, by decide⟩ (by decide)⟩

/-- C5: a show matching the filter whose bookings include no Confirmed one is
still produced by the reporter: the left-join lookup misses (`none`), the
missing aggregate value is coalesced to 0, and the row appears in the output
with `available_seats` equal to the hall's full capacity. -/
theorem test_p2_zero_bookings_retained (db : DB) (s : Show) (m : Movie)
    (h : Hall) (t : Theater)
    (hs : s ∈ db.shows) (hm : m ∈ db.movies) (em : m.movie_id = s.movie_id)
    (hh : h ∈ db.halls) (eh : h.hall_id = s.hall_id)
    (ht : t ∈ db.theaters) (et : t.theater_id = h.theater_id)
    (hname : t.theater_name = THEATER_NAME) (hdate : s.show_date = db.today)
    (hsact : s.is_active = true) (hmact : m.is_active = true)
    (hnb : ∀ b ∈ db.bookings, b.show_id = s.show_id → b.booking_status ≠ "Confirmed") :
    (s, m, h, t) ∈ p2_joined db
      ∧ lookupBookedCount db s.show_id = none
      ∧ (p2_project db (s, m, h, t)).available_seats = h.seating_capacity
      ∧ p2_project db (s, m, h, t) ∈ p2_rows db := by
  have hmem : (s, m, h, t) ∈ p2_joined db :=
    (mem_p2_joined db s m h t).2 ⟨hs, hm, em, hh, eh, ht, et, hname, hdate, hsact, hmact⟩
  have hnone := lookupBookedCount_eq_none db s.show_id hnb
  refine ⟨hmem, hnone, ?_, ?_⟩
  · simp [p2_project, hnone]
  · unfold p2_rows
    exact (List.mem_insertionSort timeLE).2 (List.mem_map_of_mem _ hmem)

/-- C5 (witness): instantiated on `dbC5`, whose only booking is Cancelled. -/
theorem test_p2_zero_bookings_retained_witness :
    (sC5 ∈ dbC5.shows ∧ mC5 ∈ dbC5.movies ∧ mC5.movie_id = sC5.movie_id
      ∧ hC5 ∈ dbC5.halls ∧ hC5.hall_id = sC5.hall_id
      ∧ tC5 ∈ dbC5.theaters ∧ tC5.theater_id = hC5.theater_id
      ∧ tC5.theater_name = THEATER_NAME ∧ sC5.show_date = dbC5.today
      ∧ sC5.is_active = true ∧ mC5.is_active = true
      ∧ (∀ b ∈ dbC5.bookings, b.show_id = sC5.show_id →
          b.booking_status ≠ "Confirmed"))
    ∧ ((sC5, mC5, hC5, tC5) ∈ p2_joined dbC5
        ∧ lookupBookedCount dbC5 sC5.show_id = none
        ∧ (p2_project dbC5 (sC5, mC5, hC5, tC5)).available_seats
            = hC5.seating_capacity
        ∧ p2_project dbC5 (sC5, mC5, hC5, tC5) ∈ p2_rows dbC5) :=
  ⟨by decide,
   test_p2_zero_bookings_retained dbC5 sC5 mC5 hC5 tC5 (by decide) (by decide)
     (by decide) (by decide) (by decide) (by decide) (by decide) (by decide)
     (by decide) (by decide) (by decide) (by decide)⟩

/-- C6: the orchestrator's result is the logical AND of the Verifier's and
the Reporter's booleans, and the Reporter's full output appears inside the
orchestrator's output for every store — in particular also when the Verifier
returned `false` — so the second component is never short-circuited. -/
theorem run_all_tests_and (db : DB) :
    (run_all_tests db).2 = ((verify_setup db).2 && (test_p2_query db).2)
      ∧ ∃ pre post, (run_all_tests db).1 = pre ++ (test_p2_query db).1 ++ post := by
  constructor
  · simp [run_all_tests, Bool.and_comm]
  · refine ⟨[String.mk (List.replicate 60 '='), "Running all tests",
      String.mk (List.replicate 60 '=')] ++ (verify_setup db).1 ++ [""],
      [""] ++ [if (test_p2_query db).2 && (verify_setup db).2 then
        "All tests passed." else "Some tests failed."], ?_⟩
    simp [run_all_tests]

/-- C7: teardown deletes the store file when it exists and reports removal;
an immediately repeated teardown finds no file, reports the no-op "not found"
outcome, and leaves the state unchanged (it never fails). -/
theorem teardown_idempotent (w : World) (hw : w.dbExists = true) :
    (teardown_database w).2 = [removedMsg]
      ∧ (teardown_database w).1.dbExists = false
      ∧ (teardown_database ((teardown_database w).1)).2 = [notFoundMsg]
      ∧ (teardown_database ((teardown_database w).1)).1 = (teardown_database w).1 := by
  simp [teardown_database, hw]

/-- C7 (witness): the teardown pair on a world whose store file exists. -/
theorem teardown_idempotent_witness :
    wC7.dbExists = true
      ∧ ((teardown_database wC7).2 = [removedMsg]
        ∧ (teardown_database wC7).1.dbExists = false
        ∧ (teardown_database ((teardown_database wC7).1)).2 = [notFoundMsg]
        ∧ (teardown_database ((teardown_database wC7).1)).1
            = (teardown_database wC7).1) :=
  ⟨rfl, teardown_idempotent wC7 rfl⟩

/-- C8: with the schema file absent the Schema Loader exits with status 1
after printing only the error line and issuing no store operation; with the
store file absent the Verifier and the Reporter do likewise. -/
theorem missing_resource_fatal (w : World) (hs : w.schemaExists = false)
    (hd : w.dbExists = false) :
    ((setup_database w).result = ProcResult.exited 1
      ∧ (setup_database w).storeOps = []
      ∧ (setup_database w).output = [schemaMissingMsg])
    ∧ ((verify_setupW w).result = ProcResult.exited 1
      ∧ (verify_setupW w).storeOps = []
      ∧ (verify_setupW w).output = [dbMissingMsg])
    ∧ ((test_p2_queryW w).result = ProcResult.exited 1
      ∧ (test_p2_queryW w).storeOps = []
      ∧ (test_p2_queryW w).output = [dbMissingMsg]) := by
  simp [setup_database, verify_setupW, test_p2_queryW, hs, hd]

/-- C8 (witness): the fail-fast behaviour on the world with neither file. -/
theorem missing_resource_fatal_witness :
    wC8.schemaExists = false ∧ wC8.dbExists = false
      ∧ (((setup_database wC8).result = ProcResult.exited 1
          ∧ (setup_database wC8).storeOps = []
          ∧ (setup_database wC8).output = [schemaMissingMsg])
        ∧ ((verify_setupW wC8).result = ProcResult.exited 1
          ∧ (verify_setupW wC8).storeOps = []
          ∧ (verify_setupW wC8).output = [dbMissingMsg])
        ∧ ((test_p2_queryW wC8).result = ProcResult.exited 1
          ∧ (test_p2_queryW wC8).storeOps = []
          ∧ (test_p2_queryW wC8).output = [dbMissingMsg])) :=
  ⟨rfl, rfl, missing_resource_fatal wC8 rfl rfl⟩

/-- C9: when the query returns zero rows the Reporter prints exactly the
banner, the distinct "No shows found" informational line and the passed line,
and still returns `true`. -/
theorem test_p2_empty_result (db : DB) (h : p2_rows db = []) :
    (test_p2_query db).1 = [p2HeaderMsg, noShowsMsg, p2PassedMsg]
      ∧ (test_p2_query db).2 = true := by
  simp [test_p2_query, h]

/-- C9 (witness): the empty-store run of the Reporter. -/
theorem test_p2_empty_result_witness :
    p2_rows dbEmpty = []
      ∧ ((test_p2_query dbEmpty).1 = [p2HeaderMsg, noShowsMsg, p2PassedMsg]
        ∧ (test_p2_query dbEmpty).2 = true) :=
  ⟨rfl, test_p2_empty_result dbEmpty rfl⟩

/-- C10: the Reporter returns `true` on every store on which its query runs,
so the orchestrator's aggregate result always equals the Verifier's result
alone. -/
theorem test_p2_always_true (db : DB) :
    (test_p2_query db).2 = true ∧ (run_all_tests db).2 = (verify_setup db).2 := by
  constructor
  · rfl
  · simp [run_all_tests, test_p2_query]

end MovieBooking
